import Mathlib

/-!
Verification of the five-stage request pipeline implemented by `createHandler`
in `packages/turtle-express/src/core/create-handler.ts`.

The handler walks a step table (guard → request_validation → resolver →
resolver_validation → send_response), mutating a per-request scratch context,
and terminates by sending a `{success, message, data, error}` envelope with a
status code, by returning the uncontrolled resolver result verbatim, or by
forwarding a thrown error to the host framework error channel (`next`).

External collaborators are reduced to their consumed contracts:
* a structural validator is a `safeParse` function returning a success/failure
  parse result (failure carries the already formatted error, standing for the
  `error.format()` call sites);
* the host framework supplies untyped `params` / `query` / `body` values and
  receives one status code plus one JSON envelope;
* JSON-ish runtime values are modelled by the inductive `Val`.

The step table and the scratch context record live in
`handler-function-steps.ts`, which is not part of the sources; the definitions
marked `Modelled from the spec:` reconstruct them from the specification text
(section 4.1 for the table, section 3 for the per-request scratch context).
-/

/-- JSON-ish runtime value, the payload currency of the pipeline.
`vundef` stands for the JavaScript `undefined`. -/
inductive Val where
  | vnull : Val
  | vundef : Val
  | vbool : Bool → Val
  | vnum : Int → Val
  | vstr : String → Val
  | vobj : List (String × Val) → Val

/-- A thrown JavaScript error: either an arbitrary thrown value or an
`Error` built from a message string (`new Error(msg)`). -/
inductive JSError where
  | thrown : Val → JSError
  | emsg : String → JSError

/-- Result of `schema.safeParse(x)`: success with parsed data, or failure
carrying the formatted validation error (the value `error.format()` yields). -/
inductive ParseResult where
  | ok : Val → ParseResult
  | fail : Val → ParseResult

/-- A structural validator, reduced to the one contract the pipeline consumes:
`safeParse`. A throwing validator is represented by `Except.error`. -/
structure Validator where
  safeParse : Val → Except JSError ParseResult

/-- Result object of a guard predicate: `{pass, response}`. -/
structure GuardResult where
  pass : Bool
  response : Val

/-- The inbound request fields consumed from the host framework. -/
structure Request where
  params : Val
  query : Val
  body : Val

/-- The merged context object handed to the resolver: the caller supplied
context seed spread together with the parsed `params` / `query` / `body`. -/
structure RCtx where
  seed : Val
  params : Val
  query : Val
  body : Val

/-- The final response-init record `{statusCode, success, message, data, error}`. -/
structure ResponseInit where
  statusCode : Nat
  success : Bool
  message : String
  data : Val
  error : Val

/-- Modelled from the spec: the per-request pipeline scratch context held in
`handler-function-steps.ts` (not under the sources). Fields that the pipeline
has not written yet are `none` / empty, matching a freshly created record. -/
structure Scratch where
  guardResult : Option GuardResult
  paramsValidation : Option ParseResult
  queryValidation : Option ParseResult
  bodyValidation : Option ParseResult
  requestValidationPass : Bool
  requestValidationResponse :
    Option (Option ParseResult × Option ParseResult × Option ParseResult)
  resolverResult : List (Nat × Val)
  resolverValidation : Option ParseResult
  responseInit : Option ResponseInit

/-- Modelled from the spec: the scratch context is created fresh for every
request and discarded afterwards (spec sections 3 and 5); this is its
initial, unwritten state. -/
def freshContext : Scratch :=
  { guardResult := none
    paramsValidation := none
    queryValidation := none
    bodyValidation := none
    requestValidationPass := false
    requestValidationResponse := none
    resolverResult := []
    resolverValidation := none
    responseInit := none }

/-- Modelled from the spec: name of step table state S001 (guard). -/
def s001name : String := "guard"

/-- Modelled from the spec: name of step table state S002 (request validation). -/
def s002name : String := "request_validation"

/-- Modelled from the spec: name of step table state S003 (resolver). -/
def s003name : String := "resolver"

/-- Modelled from the spec: name of step table state S004 (resolver validation). -/
def s004name : String := "resolver_validation"

/-- Modelled from the spec: name of step table state S005 (send response). -/
def s005name : String := "send_response"

/-- Modelled from the spec: transition `GUARD_PASSED` of S001, leading to S002. -/
def GUARD_PASSED : String := s002name

/-- Modelled from the spec: transition `GUARD_FAILED` of S001, leading to S005. -/
def GUARD_FAILED : String := s005name

/-- Modelled from the spec: transition `GUARD_SKIPPED` of S001, leading to S002. -/
def GUARD_SKIPPED : String := s002name

/-- Modelled from the spec: transition `REQUEST_VALIDATION_SKIPPED` of S002, to S003. -/
def REQUEST_VALIDATION_SKIPPED : String := s003name

/-- Modelled from the spec: transition `REQUEST_VALIDATION_PASSED` of S002, to S003. -/
def REQUEST_VALIDATION_PASSED : String := s003name

/-- Modelled from the spec: transition `REQUEST_VALIDATION_FAILED` of S002, to S005. -/
def REQUEST_VALIDATION_FAILED : String := s005name

/-- Modelled from the spec: transition `RESOLVER_DONE` of S003, leading to S004. -/
def RESOLVER_DONE : String := s004name

/-- Modelled from the spec: transition `RESOLVER_VALIDATION_DONE` of S004, to S005. -/
def RESOLVER_VALIDATION_DONE : String := s005name

/-- A route declaration, as destructured at the top of `createHandler`:
context seed, optional guard, optional request schemas, response schema map
(`[]` models an undeclared map), the `uncontrolledResolver` flag and the
resolver. The source has a single `resolver` field whose argument and return
types depend on the flag; the two typed faces of that field are `resolver`
(controlled: returns the status-keyed result object) and `uresolver`
(uncontrolled: receives the response object and returns an arbitrary value). -/
structure Route where
  context : Val
  guard : Option (Val → Request → Except JSError GuardResult)
  reqParams : Option Validator
  reqQuery : Option Validator
  reqBody : Option Validator
  response : List (Nat × Validator)
  uncontrolledResolver : Bool
  resolver : RCtx → Request → Except JSError (List (Nat × Val))
  uresolver : RCtx → Request → Except JSError Val

/-- The executor bookkeeping threaded between stages: `prevStep`,
`currentStep` and the scratch context. -/
structure StepState where
  prev : String
  cur : String
  ctx : Scratch

/-- Initial step state: both step pointers at S001, fresh scratch context. -/
def initState : StepState :=
  { prev := s001name, cur := s001name, ctx := freshContext }

/-- Lookup of `response?.[statusCode]` in the response schema map. -/
def lookupSchema (m : List (Nat × Validator)) (k : Nat) : Option Validator :=
  List.lookup k m

/-- Runs one configured request field validator; an absent schema is not
parsed and leaves the context field unset (`none`). -/
def validateField : Option Validator → Val → Except JSError (Option ParseResult)
  | none, _ => Except.ok none
  | some v, x =>
    match v.safeParse x with
    | Except.ok pr => Except.ok (some pr)
    | Except.error e => Except.error e

/-- The check `validation.success === false` over a possibly unset context
field: an unset field never counts as a failure. -/
def optSuccIsFalse : Option ParseResult → Bool
  | some (ParseResult.fail _) => true
  | _ => false

/-- The read `validation.success` on the resolver validation result; the
pipeline only reads it after stage 4 stored a parse result. -/
def optSucc : Option ParseResult → Bool
  | some (ParseResult.ok _) => true
  | _ => false

/-- The read `validation.data` (`undefined` unless the parse succeeded). -/
def optData : Option ParseResult → Val
  | some (ParseResult.ok d) => d
  | _ => Val.vundef

/-- The expression `x?.success === true ? null : x.error.format()` used to
build the per-field members of the 400 validation error object. Modelled from
the spec: an unconfigured field yields `null` (spec section 4.2 stage 5),
which pins down the default the missing `handler-function-steps.ts` gives an
unwritten validation slot. -/
def errMember : Option ParseResult → Val
  | some (ParseResult.fail e) => e
  | _ => Val.vnull

/-- The read `x.error.format()` on the resolver validation result, taken
when its success flag is false. -/
def fmtOf : Option ParseResult → Val
  | some (ParseResult.fail e) => e
  | _ => Val.vundef

/-- The check `context.guardResult.pass === false`; the pipeline reaches this
read only when the guard ran, so the unset case is arbitrary. -/
def guardPassIsFalse : Option GuardResult → Bool
  | some gr => gr.pass == false
  | none => false

/-- The read `context.guardResult.response`. -/
def guardResponseOf : Option GuardResult → Val
  | some gr => gr.response
  | none => Val.vundef

/-- First component of `context.requestValidation.response`. -/
def respParams :
    Option (Option ParseResult × Option ParseResult × Option ParseResult) →
      Option ParseResult
  | none => none
  | some (p, _, _) => p

/-- Second component of `context.requestValidation.response`. -/
def respQuery :
    Option (Option ParseResult × Option ParseResult × Option ParseResult) →
      Option ParseResult
  | none => none
  | some (_, q, _) => q

/-- Third component of `context.requestValidation.response`. -/
def respBody :
    Option (Option ParseResult × Option ParseResult × Option ParseResult) →
      Option ParseResult
  | none => none
  | some (_, _, b) => b

/-- Stage 1 (S001, guard): invoke the guard with the context seed and the
request if configured, storing its result and branching on `pass`; otherwise
skip to request validation. -/
def stage1 (r : Route) (req : Request) (st : StepState) :
    Except JSError StepState :=
  if st.cur = s001name then
    match r.guard with
    | some g =>
      match g r.context req with
      | Except.ok gr =>
        Except.ok
          { prev := s001name
            cur := if gr.pass then GUARD_PASSED else GUARD_FAILED
            ctx := { st.ctx with guardResult := some gr } }
      | Except.error e => Except.error e
    | none => Except.ok { st with prev := s001name, cur := GUARD_SKIPPED }
  else Except.ok st

/-- Stage 2 (S002, request validation): skip when no schema is configured;
otherwise run each configured validator over the matching request field,
aggregate the failure flag over the three context slots and record the
`{params, query, body}` response triple. -/
def stage2 (r : Route) (req : Request) (st : StepState) :
    Except JSError StepState :=
  if st.cur = s002name then
    if r.reqParams.isNone && r.reqQuery.isNone && r.reqBody.isNone then
      Except.ok { st with prev := s002name, cur := REQUEST_VALIDATION_SKIPPED }
    else
      match validateField r.reqParams req.params with
      | Except.error e => Except.error e
      | Except.ok pv =>
        match validateField r.reqQuery req.query with
        | Except.error e => Except.error e
        | Except.ok qv =>
          match validateField r.reqBody req.body with
          | Except.error e => Except.error e
          | Except.ok bv =>
            let validationFailed :=
              optSuccIsFalse pv || optSuccIsFalse qv || optSuccIsFalse bv
            Except.ok
              { prev := s002name
                cur :=
                  if validationFailed then REQUEST_VALIDATION_FAILED
                  else REQUEST_VALIDATION_PASSED
                ctx :=
                  { st.ctx with
                    paramsValidation := pv
                    queryValidation := qv
                    bodyValidation := bv
                    requestValidationPass := !validationFailed
                    requestValidationResponse := some (pv, qv, bv) } }
  else Except.ok st

/-- The merged resolver context: context seed together with
`context.requestValidation.response.{params,query,body}?.data`. -/
def buildCtx3 (r : Route) (st : StepState) : RCtx :=
  { seed := r.context
    params := optData (respParams st.ctx.requestValidationResponse)
    query := optData (respQuery st.ctx.requestValidationResponse)
    body := optData (respBody st.ctx.requestValidationResponse) }

/-- Outcome of stage 3: either continue walking the table, or exit the whole
handler with the uncontrolled resolver result. -/
inductive Stage3Out where
  | cont : StepState → Stage3Out
  | exitU : Val → Stage3Out

/-- Stage 3 (S003, resolver): build the merged context; a controlled resolver
is awaited and its result stored, an uncontrolled resolver is awaited and its
value returned verbatim, exiting the pipeline. -/
def stage3 (r : Route) (req : Request) (st : StepState) :
    Except JSError Stage3Out :=
  if st.cur = s003name then
    let rctx := buildCtx3 r st
    if r.uncontrolledResolver == false then
      match r.resolver rctx req with
      | Except.ok rr =>
        Except.ok
          (Stage3Out.cont
            { prev := s003name
              cur := RESOLVER_DONE
              ctx := { st.ctx with resolverResult := rr } })
      | Except.error e => Except.error e
    else
      match r.uresolver rctx req with
      | Except.ok v => Except.ok (Stage3Out.exitU v)
      | Except.error e => Except.error e
  else Except.ok (Stage3Out.cont st)

/-- The configuration error message thrown for a controlled resolver whose
status code has no declared response schema. -/
def configMsg : String :=
  "The controlled resolver function needs at least one `response` schema."

/-- Stage 4 (S004, resolver validation): read the first status-code key of
the resolver result and its payload; a controlled resolver without a matching
response schema throws the configuration error; otherwise the schema parses
the payload and the result is stored. -/
def stage4 (r : Route) (st : StepState) : Except JSError StepState :=
  if st.cur = s004name then
    let result := st.ctx.resolverResult
    let firstEntryKey := (result.map Prod.fst).head?
    let firstEntry := ((result.map Prod.snd).head?).getD Val.vundef
    let schema := firstEntryKey.bind (fun k => lookupSchema r.response k)
    if r.uncontrolledResolver == false && schema.isNone then
      Except.error (JSError.emsg configMsg)
    else
      match schema with
      | none =>
        Except.ok
          { prev := s004name
            cur := RESOLVER_VALIDATION_DONE
            ctx := { st.ctx with resolverValidation := none } }
      | some sch =>
        match sch.safeParse firstEntry with
        | Except.ok pr =>
          Except.ok
            { prev := s004name
              cur := RESOLVER_VALIDATION_DONE
              ctx := { st.ctx with resolverValidation := some pr } }
        | Except.error e => Except.error e
  else Except.ok st

/-- Stage 5 (S005, send response): build the response-init record from the
stage that led here — guard failure (401 Unauthorized), request validation
failure (400 with the per-field error object), or resolver validation with
the two status-code overrides. -/
def stage5 (st : StepState) : StepState :=
  if st.cur = s005name then
    if st.prev = s001name ∧ guardPassIsFalse st.ctx.guardResult then
      { st with
        ctx :=
          { st.ctx with
            responseInit :=
              some
                { statusCode := 401
                  success := false
                  message := "Unauthorized."
                  data := Val.vnull
                  error := guardResponseOf st.ctx.guardResult } } }
    else if st.prev = s002name then
      { st with
        ctx :=
          { st.ctx with
            responseInit :=
              some
                { statusCode := 400
                  success := false
                  message := "Validation Failed."
                  data := Val.vnull
                  error :=
                    Val.vobj
                      [("params",
                        errMember (respParams st.ctx.requestValidationResponse)),
                       ("query",
                        errMember (respQuery st.ctx.requestValidationResponse)),
                       ("body",
                        errMember (respBody st.ctx.requestValidationResponse))] } } }
    else
      let statusCode0 := ((st.ctx.resolverResult.map Prod.fst).head?).getD 0
      let success := optSucc st.ctx.resolverValidation
      let finalPair :=
        if statusCode0 < 400 ∧ success = false then
          ((400 : Nat), "Response validation failed.")
        else if success = true ∧ 400 ≤ statusCode0 then
          (statusCode0, "Failed.")
        else (statusCode0, "Success.")
      { st with
        ctx :=
          { st.ctx with
            responseInit :=
              some
                { statusCode := finalPair.1
                  success := success
                  message := finalPair.2
                  data :=
                    if success then optData st.ctx.resolverValidation
                    else Val.vnull
                  error :=
                    if success then Val.vnull
                    else fmtOf st.ctx.resolverValidation } } }
  else st

/-- Stages 1 and 2 chained, from the initial step state. -/
def runStages12 (r : Route) (req : Request) : Except JSError StepState :=
  match stage1 r req initState with
  | Except.error e => Except.error e
  | Except.ok st1 => stage2 r req st1

/-- Exit of the handler body: an envelope to send, or the verbatim
uncontrolled resolver result. -/
inductive MainExit where
  | envl : ResponseInit → MainExit
  | uret : Val → MainExit

/-- The placeholder response-init record; never sent, since stage 5 writes
`responseInit` on every path that reaches the send. -/
def dfltInit : ResponseInit :=
  { statusCode := 0, success := false, message := "", data := Val.vundef,
    error := Val.vundef }

/-- The handler body (the function inside `Promise.resolve().then`): the
five stages in sequence, ending in the `res.status` / `res.send` pair read
from the scratch context, or exiting early for an uncontrolled resolver.
Any thrown error is the `Except.error` case. -/
def handlerMain (r : Route) (req : Request) : Except JSError MainExit :=
  match runStages12 r req with
  | Except.error e => Except.error e
  | Except.ok st2 =>
    match stage3 r req st2 with
    | Except.error e => Except.error e
    | Except.ok (Stage3Out.exitU v) => Except.ok (MainExit.uret v)
    | Except.ok (Stage3Out.cont st3) =>
      match stage4 r st3 with
      | Except.error e => Except.error e
      | Except.ok st4 =>
        Except.ok (MainExit.envl (((stage5 st4).ctx.responseInit).getD dfltInit))

/-- Observable outcome of one handler invocation: an envelope sent, the
uncontrolled resolver result returned verbatim, or an error forwarded to the
host framework via `next`. -/
inductive Outcome where
  | sent : ResponseInit → Outcome
  | uncontrolled : Val → Outcome
  | nextErr : JSError → Outcome

/-- The request handler produced by `createHandler`: runs the body and, at
the outermost boundary, forwards any thrown or rejected error to `next`
(`.catch(next)`). -/
def handler (r : Route) (req : Request) : Outcome :=
  match handlerMain r req with
  | Except.ok (MainExit.envl e) => Outcome.sent e
  | Except.ok (MainExit.uret v) => Outcome.uncontrolled v
  | Except.error e => Outcome.nextErr e

/-- Two requests processed in sequence by handlers produced by
`createHandler`; each invocation starts from its own fresh scratch context
(spec sections 3 and 5), so the pair is the pair of independent runs. -/
def runSeq (r1 : Route) (req1 : Request) (r2 : Route) (req2 : Request) :
    Outcome × Outcome :=
  (handler r1 req1, handler r2 req2)

/-- A validator accepting every value and returning it unchanged. -/
def vAccept : Validator :=
  { safeParse := fun v => Except.ok (ParseResult.ok v) }

/-- A validator rejecting every value with the formatted error `"bad"`. -/
def vReject : Validator :=
  { safeParse := fun _ => Except.ok (ParseResult.fail (Val.vstr "bad")) }

/-- A concrete request with null fields. -/
def req0 : Request :=
  { params := Val.vnull, query := Val.vnull, body := Val.vnull }

/-- A minimal route declaration used as the base of the concrete examples. -/
def baseRoute : Route :=
  { context := Val.vnull
    guard := none
    reqParams := none
    reqQuery := none
    reqBody := none
    response := []
    uncontrolledResolver := false
    resolver := fun _ _ => Except.ok []
    uresolver := fun _ _ => Except.ok Val.vnull }

/-- The step state after stages 1 and 2 on a route with no guard and no
request schemas: both stages skipped, scratch context untouched. -/
def stSkip : StepState :=
  { prev := s002name, cur := REQUEST_VALIDATION_SKIPPED, ctx := freshContext }

/-- Concrete route: controlled resolver declaring status 200 whose payload
fails the declared 200 schema. -/
def rC2a : Route :=
  { baseRoute with
    response := [(200, vReject)]
    resolver := fun _ _ => Except.ok [(200, Val.vnum 1)] }

/-- Concrete route: controlled resolver declaring status 404 whose payload
passes the declared 404 schema. -/
def rC2b : Route :=
  { baseRoute with
    response := [(404, vAccept)]
    resolver := fun _ _ => Except.ok [(404, Val.vnum 2)] }

/-- Concrete route: controlled resolver declaring status 201 with no entry
for 201 in the response schema map. -/
def rC3 : Route :=
  { baseRoute with
    resolver := fun _ _ => Except.ok [(201, Val.vnum 1)] }

/-- Concrete route: guard refusing every request with response `"no token"`. -/
def rC4 : Route :=
  { baseRoute with
    guard :=
      some (fun _ _ =>
        Except.ok { pass := false, response := Val.vstr "no token" }) }

/-- Concrete route: a body schema that rejects, no params or query schema. -/
def rC5 : Route :=
  { baseRoute with reqBody := some vReject }

/-- Concrete route: a guard that throws. -/
def rC6 : Route :=
  { baseRoute with
    guard := some (fun _ _ => Except.error (JSError.thrown (Val.vstr "boom"))) }

/-- Concrete route: uncontrolled resolver returning the raw value `"raw"`,
with no declared response schema map. -/
def rC7 : Route :=
  { baseRoute with
    uncontrolledResolver := true
    uresolver := fun _ _ => Except.ok (Val.vstr "raw") }

/-- Concrete route for scenario A: no guard, no request schemas, resolver
returning `(200, (id: 1))` and a 200 response schema accepting it. -/
def rC8 : Route :=
  { baseRoute with
    response := [(200, vAccept)]
    resolver := fun _ _ => Except.ok [(200, Val.vobj [("id", Val.vnum 1)])] }

/-- Concrete route: controlled resolver declaring status 500 whose payload
fails the declared 500 schema. -/
def rC10 : Route :=
  { baseRoute with
    response := [(500, vReject)]
    resolver := fun _ _ => Except.ok [(500, Val.vnum 3)] }

theorem handler_uncontrolled_ok (r : Route) (req : Request) (st : StepState)
    (v : Val) (h12 : runStages12 r req = Except.ok st)
    (hcur : st.cur = s003name) (huc : r.uncontrolledResolver = true)
    (hu : r.uresolver (buildCtx3 r st) req = Except.ok v) :
    handler r req = Outcome.uncontrolled v := by
  have h3 : stage3 r req st = Except.ok (Stage3Out.exitU v) := by
    simp [stage3, hcur, huc, hu]
  simp [handler, handlerMain, h12, h3]

theorem handler_uncontrolled_err (r : Route) (req : Request) (st : StepState)
    (e : JSError) (h12 : runStages12 r req = Except.ok st)
    (hcur : st.cur = s003name) (huc : r.uncontrolledResolver = true)
    (hu : r.uresolver (buildCtx3 r st) req = Except.error e) :
    handler r req = Outcome.nextErr e := by
  have h3 : stage3 r req st = Except.error e := by
    simp [stage3, hcur, huc, hu]
  simp [handler, handlerMain, h12, h3]

/-- Claim C1: the pipeline scratch context is created fresh for each request
and never published to another execution; for two requests processed in
sequence, the envelope of the second is independent of the first request or
its route, and equals the stand-alone run of the second request. The fresh
context per invocation is the spec-modelled behavior of the missing
`handler-function-steps.ts`. -/
theorem c1_scratch_context_isolation (r1 r1' r2 : Route)
    (req1 req1' req2 : Request) :
    (runSeq r1 req1 r2 req2).2 = handler r2 req2 ∧
    (runSeq r1 req1 r2 req2).2 = (runSeq r1' req1' r2 req2).2 :=
  ⟨rfl, rfl⟩

/-- Claim C9: executing the same handler twice on the same unmutated request
yields identical envelopes on both runs; guard, validators and resolver are
deterministic by construction in this embedding. -/
theorem c9_idempotence (r : Route) (req : Request) :
    (runSeq r req r req).1 = (runSeq r req r req).2 :=
  rfl

/-- Claim C4: a configured guard returning `pass: false` makes the handler
send exactly the 401 Unauthorized envelope carrying the guard response as
the error payload, and the outcome does not depend on the request schemas or
the resolver (neither request validation nor the resolver runs). -/
theorem c4_guard_failure_envelope (r : Route) (req : Request)
    (g : Val → Request → Except JSError GuardResult) (gv : Val)
    (hg : r.guard = some g)
    (hgr : g r.context req = Except.ok { pass := false, response := gv }) :
    handler r req =
      Outcome.sent
        { statusCode := 401, success := false, message := "Unauthorized.",
          data := Val.vnull, error := gv } ∧
    ∀ (p q b : Option Validator)
      (f : RCtx → Request → Except JSError (List (Nat × Val)))
      (u : RCtx → Request → Except JSError Val),
      handler
          { r with
            reqParams := p, reqQuery := q, reqBody := b,
            resolver := f, uresolver := u } req =
        handler r req := by
  have key : ∀ r' : Route, r'.guard = some g → r'.context = r.context →
      handler r' req =
        Outcome.sent
          { statusCode := 401, success := false, message := "Unauthorized.",
            data := Val.vnull, error := gv } := by
    intro r' hg' hctx
    have h1 : stage1 r' req initState =
        Except.ok
          { prev := s001name, cur := GUARD_FAILED,
            ctx := { freshContext with
                      guardResult := some { pass := false, response := gv } } } := by
      simp [stage1, initState, hg', hctx, hgr]
    simp [handler, handlerMain, runStages12, h1, stage2, stage3, stage4,
      stage5, GUARD_FAILED, s001name, s002name, s003name, s004name, s005name,
      guardPassIsFalse, guardResponseOf]
  refine ⟨key r hg rfl, fun p q b f u => ?_⟩
  exact
    (key
        { r with
          reqParams := p, reqQuery := q, reqBody := b,
          resolver := f, uresolver := u } hg rfl).trans
      (key r hg rfl).symm

/-- Claim C6: every failure inside the handler body — a throw or rejection
from the guard, a validator (stages 1 and 2), or the controlled or
uncontrolled resolver — is caught once at the outermost boundary and
forwarded to `next`; the handler itself always yields one of the three
outcomes and forwards exactly the errors that occurred. -/
theorem c6_error_sink_funnel (r : Route) (req : Request) :
    (∀ e, handler r req = Outcome.nextErr e ↔
      handlerMain r req = Except.error e) ∧
    (∀ e, runStages12 r req = Except.error e →
      handler r req = Outcome.nextErr e) ∧
    (∀ st e, runStages12 r req = Except.ok st → st.cur = s003name →
      r.uncontrolledResolver = false →
      r.resolver (buildCtx3 r st) req = Except.error e →
      handler r req = Outcome.nextErr e) ∧
    (∀ st e, runStages12 r req = Except.ok st → st.cur = s003name →
      r.uncontrolledResolver = true →
      r.uresolver (buildCtx3 r st) req = Except.error e →
      handler r req = Outcome.nextErr e) := by
  refine ⟨fun e => ?_, fun e h => ?_, fun st e h12 hcur huc hres => ?_,
    fun st e h12 hcur huc hres => handler_uncontrolled_err r req st e h12 hcur huc hres⟩
  · cases hm : handlerMain r req with
    | ok m => cases m <;> simp [handler, hm]
    | error e0 => simp [handler, hm]
  · simp [handler, handlerMain, h]
  · have h3 : stage3 r req st = Except.error e := by
      simp [stage3, hcur, huc, hres]
    simp [handler, handlerMain, h12, h3]

/-- Claim C2: status-code override law. For a controlled resolver whose sole
status-code key is `s` with a declared schema for `s`: if `s < 400` and the
response validation fails, the envelope is status 400, success false,
message "Response validation failed."; if `400 ≤ s` and the response
validation passes, the status stays `s` with success true and message
"Failed.". -/
theorem c2_status_code_override (r : Route) (req : Request) (st : StepState)
    (s : Nat) (payload : Val) (sch : Validator)
    (h12 : runStages12 r req = Except.ok st) (hcur : st.cur = s003name)
    (huc : r.uncontrolledResolver = false)
    (hres : r.resolver (buildCtx3 r st) req = Except.ok [(s, payload)])
    (hlk : lookupSchema r.response s = some sch) :
    (∀ e : Val, s < 400 →
      sch.safeParse payload = Except.ok (ParseResult.fail e) →
      handler r req =
        Outcome.sent
          { statusCode := 400, success := false,
            message := "Response validation failed.", data := Val.vnull,
            error := e }) ∧
    (∀ d : Val, 400 ≤ s →
      sch.safeParse payload = Except.ok (ParseResult.ok d) →
      handler r req =
        Outcome.sent
          { statusCode := s, success := true, message := "Failed.",
            data := d, error := Val.vnull }) := by
  constructor
  · intro e hs hp
    simp [handler, handlerMain, h12, hcur, huc, hres, hlk, hp, stage3,
      stage4, stage5, RESOLVER_DONE, RESOLVER_VALIDATION_DONE, s001name,
      s002name, s003name, s004name, s005name, optSucc, optData, fmtOf, hs]
  · intro d hs hp
    simp [handler, handlerMain, h12, hcur, huc, hres, hlk, hp, stage3,
      stage4, stage5, RESOLVER_DONE, RESOLVER_VALIDATION_DONE, s001name,
      s002name, s003name, s004name, s005name, optSucc, optData, fmtOf, hs]

/-- Claim C10: for a controlled resolver whose sole status-code key is
`s ≥ 400` and whose payload fails the declared schema for `s`, neither
override fires: the envelope keeps status `s` and the message "Success."
while success is false, data is null and the error is the formatted
validation error. -/
theorem c10_error_status_failing_validation (r : Route) (req : Request)
    (st : StepState) (s : Nat) (payload : Val) (sch : Validator) (e : Val)
    (h12 : runStages12 r req = Except.ok st) (hcur : st.cur = s003name)
    (huc : r.uncontrolledResolver = false)
    (hres : r.resolver (buildCtx3 r st) req = Except.ok [(s, payload)])
    (hlk : lookupSchema r.response s = some sch)
    (hs : 400 ≤ s)
    (hp : sch.safeParse payload = Except.ok (ParseResult.fail e)) :
    handler r req =
      Outcome.sent
        { statusCode := s, success := false, message := "Success.",
          data := Val.vnull, error := e } := by
  have hns : ¬s < 400 := Nat.not_lt.mpr hs
  simp [handler, handlerMain, h12, hcur, huc, hres, hlk, hp, stage3,
    stage4, stage5, RESOLVER_DONE, RESOLVER_VALIDATION_DONE, s001name,
    s002name, s003name, s004name, s005name, optSucc, optData, fmtOf, hns]

/-- Claim C3: a controlled resolver whose sole returned status-code key has
no entry in the declared response schema map makes the pipeline throw the
configuration error, which surfaces through the error sink (`next`); no
envelope is ever sent. -/
theorem c3_missing_schema_config_error (r : Route) (req : Request)
    (st : StepState) (s : Nat) (payload : Val)
    (h12 : runStages12 r req = Except.ok st) (hcur : st.cur = s003name)
    (huc : r.uncontrolledResolver = false)
    (hres : r.resolver (buildCtx3 r st) req = Except.ok [(s, payload)])
    (hlk : lookupSchema r.response s = none) :
    handler r req = Outcome.nextErr (JSError.emsg configMsg) ∧
    ∀ env, handler r req ≠ Outcome.sent env := by
  have hh : handler r req = Outcome.nextErr (JSError.emsg configMsg) := by
    simp [handler, handlerMain, h12, hcur, huc, hres, hlk, stage3, stage4,
      RESOLVER_DONE, s003name, s004name]
  exact ⟨hh, fun env h => by simp [hh] at h⟩

/-- Claim C5: when at least one configured request validator fails (and none
of them throws), the handler sends status 400 with success false, message
"Validation Failed.", null data, and an error object whose params, query and
body members are null for fields that passed or were not configured and the
formatted error for fields that failed. -/
theorem c5_request_validation_failure_envelope (r : Route) (req : Request)
    (st1 : StepState) (pv qv bv : Option ParseResult)
    (h1 : stage1 r req initState = Except.ok st1) (hcur : st1.cur = s002name)
    (hnotall :
      (r.reqParams.isNone && r.reqQuery.isNone && r.reqBody.isNone) = false)
    (hp : validateField r.reqParams req.params = Except.ok pv)
    (hq : validateField r.reqQuery req.query = Except.ok qv)
    (hb : validateField r.reqBody req.body = Except.ok bv)
    (hfail :
      (optSuccIsFalse pv || optSuccIsFalse qv || optSuccIsFalse bv) = true) :
    handler r req =
      Outcome.sent
        { statusCode := 400, success := false, message := "Validation Failed.",
          data := Val.vnull,
          error :=
            Val.vobj
              [("params", errMember pv), ("query", errMember qv),
               ("body", errMember bv)] } := by
  have h2 : stage2 r req st1 =
      Except.ok
        { prev := s002name, cur := REQUEST_VALIDATION_FAILED,
          ctx :=
            { st1.ctx with
              paramsValidation := pv
              queryValidation := qv
              bodyValidation := bv
              requestValidationPass := false
              requestValidationResponse := some (pv, qv, bv) } } := by
    simp [stage2, hcur, hnotall, hp, hq, hb, hfail]
  have h12 : runStages12 r req =
      Except.ok
        { prev := s002name, cur := REQUEST_VALIDATION_FAILED,
          ctx :=
            { st1.ctx with
              paramsValidation := pv
              queryValidation := qv
              bodyValidation := bv
              requestValidationPass := false
              requestValidationResponse := some (pv, qv, bv) } } := by
    simp [runStages12, h1, h2]
  simp [handler, handlerMain, h12, stage3, stage4, stage5,
    REQUEST_VALIDATION_FAILED, s001name, s002name, s003name, s004name,
    s005name, respParams, respQuery, respBody]

/-- Claim C7: an uncontrolled resolver takes over after the guard and
request-validation stages: the handler returns its result verbatim, the
outcome is unchanged under any replacement of the response schema map
(including an undeclared one), and no envelope is ever sent. -/
theorem c7_uncontrolled_resolver_frame (r : Route) (req : Request)
    (st : StepState) (h12 : runStages12 r req = Except.ok st)
    (hcur : st.cur = s003name) (huc : r.uncontrolledResolver = true) :
    (∀ v, r.uresolver (buildCtx3 r st) req = Except.ok v →
      handler r req = Outcome.uncontrolled v) ∧
    (∀ m : List (Nat × Validator),
      handler { r with response := m } req = handler r req) ∧
    (∀ env, handler r req ≠ Outcome.sent env) := by
  refine ⟨fun v hu => handler_uncontrolled_ok r req st v h12 hcur huc hu,
    fun m => ?_, fun env h => ?_⟩
  · cases hu : r.uresolver (buildCtx3 r st) req with
    | ok v =>
      rw [handler_uncontrolled_ok r req st v h12 hcur huc hu]
      exact
        handler_uncontrolled_ok { r with response := m } req st v h12 hcur huc hu
    | error e =>
      rw [handler_uncontrolled_err r req st e h12 hcur huc hu]
      exact
        handler_uncontrolled_err { r with response := m } req st e h12 hcur huc hu
  · cases hu : r.uresolver (buildCtx3 r st) req with
    | ok v =>
      rw [handler_uncontrolled_ok r req st v h12 hcur huc hu] at h
      exact Outcome.noConfusion h
    | error e =>
      rw [handler_uncontrolled_err r req st e h12 hcur huc hu] at h
      exact Outcome.noConfusion h

/-- Claim C8: scenario A. A route with no guard and no request schemas whose
controlled resolver returns the sole entry `(200, (id: 1))`, with a declared
200 schema accepting that payload, skips the guard, runs the resolver and
sends status 200 with the envelope success true, message "Success.", the
payload as data and null error. -/
theorem c8_scenario_a (r : Route) (req : Request) (sch : Validator)
    (hg : r.guard = none) (hp : r.reqParams = none) (hq : r.reqQuery = none)
    (hb : r.reqBody = none) (huc : r.uncontrolledResolver = false)
    (hres : r.resolver
        { seed := r.context, params := Val.vundef, query := Val.vundef,
          body := Val.vundef } req =
      Except.ok [(200, Val.vobj [("id", Val.vnum 1)])])
    (hlk : lookupSchema r.response 200 = some sch)
    (hparse : sch.safeParse (Val.vobj [("id", Val.vnum 1)]) =
      Except.ok (ParseResult.ok (Val.vobj [("id", Val.vnum 1)]))) :
    handler r req =
      Outcome.sent
        { statusCode := 200, success := true, message := "Success.",
          data := Val.vobj [("id", Val.vnum 1)], error := Val.vnull } := by
  have hres0 : r.resolver (buildCtx3 r stSkip) req =
      Except.ok [(200, Val.vobj [("id", Val.vnum 1)])] := hres
  have h12 : runStages12 r req = Except.ok stSkip := by
    simp [runStages12, stage1, stage2, initState, freshContext, hg, hp, hq,
      hb, stSkip, GUARD_SKIPPED, REQUEST_VALIDATION_SKIPPED, s001name,
      s002name, s003name]
  have hcurS : stSkip.cur = s003name := rfl
  simp [handler, handlerMain, h12, hcurS, huc, hres0, hlk, hparse, stage3,
    stage4, stage5, RESOLVER_DONE, RESOLVER_VALIDATION_DONE, s001name,
    s002name, s003name, s004name, s005name, optSucc, optData, fmtOf]

/-- Witness for claim C2, at the concrete routes rC2a (status 200, failing
schema) and rC2b (status 404, passing schema). -/
theorem c2_status_code_override_witness :
    handler rC2a req0 =
      Outcome.sent
        { statusCode := 400, success := false,
          message := "Response validation failed.", data := Val.vnull,
          error := Val.vstr "bad" } ∧
    handler rC2b req0 =
      Outcome.sent
        { statusCode := 404, success := true, message := "Failed.",
          data := Val.vnum 2, error := Val.vnull } :=
  ⟨(c2_status_code_override rC2a req0 stSkip 200 (Val.vnum 1) vReject rfl rfl
      rfl rfl rfl).1 (Val.vstr "bad") (by decide) rfl,
   (c2_status_code_override rC2b req0 stSkip 404 (Val.vnum 2) vAccept rfl rfl
      rfl rfl rfl).2 (Val.vnum 2) (by decide) rfl⟩

/-- Witness for claim C3, at the concrete route rC3 whose resolver declares
status 201 while the response schema map is empty. -/
theorem c3_missing_schema_config_error_witness :
    handler rC3 req0 = Outcome.nextErr (JSError.emsg configMsg) :=
  (c3_missing_schema_config_error rC3 req0 stSkip 201 (Val.vnum 1) rfl rfl
    rfl rfl rfl).1

/-- Witness for claim C4, at the concrete route rC4 whose guard refuses
every request with the response string. -/
theorem c4_guard_failure_envelope_witness :
    handler rC4 req0 =
      Outcome.sent
        { statusCode := 401, success := false, message := "Unauthorized.",
          data := Val.vnull, error := Val.vstr "no token" } :=
  (c4_guard_failure_envelope rC4 req0
    (fun _ _ => Except.ok { pass := false, response := Val.vstr "no token" })
    (Val.vstr "no token") rfl rfl).1

/-- Witness for claim C5, at the concrete route rC5 whose body schema
rejects while params and query are unconfigured. -/
theorem c5_request_validation_failure_envelope_witness :
    handler rC5 req0 =
      Outcome.sent
        { statusCode := 400, success := false, message := "Validation Failed.",
          data := Val.vnull,
          error :=
            Val.vobj
              [("params", Val.vnull), ("query", Val.vnull),
               ("body", Val.vstr "bad")] } :=
  c5_request_validation_failure_envelope rC5 req0
    { prev := s001name, cur := GUARD_SKIPPED, ctx := freshContext }
    none none (some (ParseResult.fail (Val.vstr "bad")))
    rfl rfl rfl rfl rfl rfl rfl

/-- Witness for claim C6, at the concrete route rC6 whose guard throws. -/
theorem c6_error_sink_funnel_witness :
    handler rC6 req0 = Outcome.nextErr (JSError.thrown (Val.vstr "boom")) :=
  (c6_error_sink_funnel rC6 req0).2.1 (JSError.thrown (Val.vstr "boom")) rfl

/-- Witness for claim C7, at the concrete uncontrolled route rC7. -/
theorem c7_uncontrolled_resolver_frame_witness :
    handler rC7 req0 = Outcome.uncontrolled (Val.vstr "raw") ∧
    handler { rC7 with response := [(200, vAccept)] } req0 =
      handler rC7 req0 :=
  ⟨(c7_uncontrolled_resolver_frame rC7 req0 stSkip rfl rfl rfl).1
      (Val.vstr "raw") rfl,
   (c7_uncontrolled_resolver_frame rC7 req0 stSkip rfl rfl rfl).2.1
      [(200, vAccept)]⟩

/-- Witness for claim C8, at the concrete scenario-A route rC8. -/
theorem c8_scenario_a_witness :
    handler rC8 req0 =
      Outcome.sent
        { statusCode := 200, success := true, message := "Success.",
          data := Val.vobj [("id", Val.vnum 1)], error := Val.vnull } :=
  c8_scenario_a rC8 req0 vAccept rfl rfl rfl rfl rfl rfl rfl rfl

/-- Witness for claim C10, at the concrete route rC10 whose resolver
declares status 500 with a payload failing the declared 500 schema. -/
theorem c10_error_status_failing_validation_witness :
    handler rC10 req0 =
      Outcome.sent
        { statusCode := 500, success := false, message := "Success.",
          data := Val.vnull, error := Val.vstr "bad" } :=
  c10_error_status_failing_validation rC10 req0 stSkip 500 (Val.vnum 3)
    vReject (Val.vstr "bad") rfl rfl rfl rfl rfl (by decide) rfl
